/-
Verification development for the PomoBot staged-interval-timer core
(`src/bot/Timer/Timer.py`).

The Python classes `Timer`, `TimerState`, `TimerStage`, `TimerChannel` and
`TimerSubscriber` are shallowly embedded below.  Conventions of the embedding:

* `time.time()` is passed in explicitly as a parameter `now : Int`
  (`int(time.time())` truncates to an integer; we work with the truncated
  value directly).
* Python exceptions are modelled with `Except PyErr`.  A method that can raise
  returns `Except PyErr ...`; where Python leaves an object mutated after an
  exception escapes (e.g. `Timer.setup`), the embedding returns the mutated
  state alongside the outcome.
* Calls into the Discord transport (`channel.send`, `message.edit`,
  `message.pin`, `channel.edit(name=...)`, `message.add_reaction`) are
  recorded as `Effect`s.  The effect list records the calls made to the
  transport, in order, including calls whose failure the code swallows.
  Whether a fallible transport call succeeds is an input (`World`).
* Object references that the embedded methods only read through specific
  attributes (`member.id`, `member.name`, `member.guild.id`, `role.id`,
  `role.mention`, channels) are modelled by those attributes / opaque ids.
* A Python `dict` is modelled as an insertion-ordered association list;
  iterating over a dict yields its keys.
-/
import Mathlib

namespace PomoBot

/-- Python exceptions that the embedded code can raise. -/
inductive PyErr where
  | attributeError
  | typeError
  | indexError
  | zeroDivisionError
  deriving DecidableEq, Repr

/-- Python `list[i]`: negative indices count from the end; out-of-range
raises `IndexError`. -/
def pyGet {α : Type} (xs : List α) (i : Int) : Except PyErr α :=
  let n : Int := xs.length
  let j : Int := if i < 0 then i + n else i
  if 0 ≤ j ∧ j < n then
    match xs.get? j.toNat with
    | some x => .ok x
    | none => .error .indexError
  else
    .error .indexError

/-- Embeds `class TimerState(Enum)`: STOPPED = 1, RUNNING = 2, PAUSED = 3. -/
inductive TimerState where
  | STOPPED
  | RUNNING
  | PAUSED
  deriving DecidableEq, Repr

/-- Embeds `class TimerStage`: small data class encapsulating a "stage" of a timer.
`duration` is a number of minutes. -/
structure TimerStage where
  name : String
  duration : Int
  message : String := ""
  focus : Bool := false
  modifiers : List (String × Bool) := []
  deriving DecidableEq, Repr

/-- Embeds `class TimerSubscriber` after `__init__` has run: the object reference
attributes `member`, `timer`, `interface`, `client` are modelled by the
attributes the methods read from them (`member.id`, `member.name`,
`member.guild.id`, `timer.role.id`). -/
structure TimerSubscriber where
  id : Int
  member_name : String
  guild_id : Int
  role_id : Int
  time_joined : Int
  last_updated : Int
  clocked_time : Int
  active : Bool
  last_seen : Int
  warnings : Int
  deriving DecidableEq, Repr

namespace TimerSubscriber

/-- The tuple `TimerSubscriber.__slots__`, copied verbatim from the source. -/
def slots_list : List String :=
  ["member", "timer", "interface", "client", "id",
   "time_joined", "last_updated", "clocked_time", "active", "last_seen", "warnings"]

/-- Constructor `TimerSubscriber.__init__(member, timer, interface)` at time `now`. -/
def init (member_id : Int) (member_name : String) (guild_id role_id : Int)
    (now : Int) : TimerSubscriber :=
  { id := member_id
    member_name := member_name
    guild_id := guild_id
    role_id := role_id
    time_joined := now
    last_updated := now
    clocked_time := 0
    active := true
    last_seen := now
    warnings := 0 }

/-- Method `bump()`: `last_seen = now; warnings = 0`. -/
def bump (s : TimerSubscriber) (now : Int) : TimerSubscriber :=
  { s with last_seen := now, warnings := 0 }

/-- Method `touch()`: `clocked_time += (now - last_updated) if active else 0;
last_updated = now`. -/
def touch (s : TimerSubscriber) (now : Int) : TimerSubscriber :=
  { s with
    clocked_time := s.clocked_time + (if s.active then now - s.last_updated else 0)
    last_updated := now }

/-- Method `session_data()`: calls `touch()`, then returns
`(id, member.guild.id, timer.role.id, time_joined, clocked_time)`.
The updated subscriber is returned alongside the tuple. -/
def session_data (s : TimerSubscriber) (now : Int) :
    TimerSubscriber × (Int × Int × Int × Int × Int) :=
  let s := s.touch now
  (s, (s.id, s.guild_id, s.role_id, s.time_joined, s.clocked_time))

/-- Access to the attribute `time_subbed` (read in `serialise`, assigned in
`deserialise`).  `__slots__` declares `clocked_time` but no `time_subbed`
slot, and `__init__` never assigns one, so both the read and the assignment
raise `AttributeError`; the `.ok` branch is unreachable. -/
def time_subbed_slot : Except PyErr Int :=
  if "time_subbed" ∈ slots_list then .ok 0 else .error .attributeError

/-- Method `serialise()`: returns
`(id, member.guild.id, timer.role.id, time_joined, last_updated,
time_subbed, last_seen, warnings)` — the sixth component reads
`self.time_subbed`, which does not exist. -/
def serialise (s : TimerSubscriber) :
    Except PyErr (Int × Int × Int × Int × Int × Int × Int × Int) :=
  match time_subbed_slot with
  | .error e => .error e
  | .ok ts =>
      .ok (s.id, s.guild_id, s.role_id, s.time_joined, s.last_updated,
           ts, s.last_seen, s.warnings)

/-- Classmethod `TimerSubscriber.deserialise(cls, member, timer, interface, data)`:
constructs a fresh subscriber via `__init__` at time `now`, then overwrites
`time_joined`, `last_updated`, `time_subbed`, `last_seen`, `warnings` from
`data[3..7]`.  The assignment `self.time_subbed = data[5]` hits a slot that
`__slots__` does not declare. -/
def deserialise (member_id : Int) (member_name : String)
    (guild_id role_id : Int) (data : List Int) (now : Int) :
    Except PyErr TimerSubscriber :=
  let s := init member_id member_name guild_id role_id now
  match pyGet data 3 with
  | .error e => .error e
  | .ok tj =>
    match pyGet data 4 with
    | .error e => .error e
    | .ok lu =>
      let s := { s with time_joined := tj, last_updated := lu }
      match pyGet data 5 with
      | .error e => .error e
      | .ok _ts =>
        match time_subbed_slot with
        | .error e => .error e
        | .ok _ =>
          match pyGet data 6 with
          | .error e => .error e
          | .ok ls =>
            match pyGet data 7 with
            | .error e => .error e
            | .ok w => .ok { s with last_seen := ls, warnings := w }

end TimerSubscriber

/-- Calls made to the Discord transport, in program order.  An effect is
recorded when the call is made, even when the code swallows its failure. -/
inductive Effect where
  | sendMessage (channel : Int) (text : String)
  | sendEmbed (channel : Int) (title desc : String)
  | addReaction (emoji : String)
  | editMessage (desc : String)
  | pinMessage
  | editChannelName (channel : Int) (name : String)
  | spawnRunloop
  deriving DecidableEq, Repr

/-- Embeds `class Timer` state after `__init__`.  `channel` and `clock_channel` are
opaque channel ids (`clock_channel` may be `None`); `role` is modelled by the
two attributes read from it, `role.id` and `role.mention`. -/
structure TimerSt where
  name : String
  role_id : Int
  role_mention : String
  channel : Int
  clock_channel : Option Int
  start_time : Option Int
  current_stage_start : Option Int
  remaining : Option Int
  state : TimerState
  stages : Option (List TimerStage)
  current_stage : Int
  subscribed : List (Int × TimerSubscriber)
  last_clockupdate : Int
  deriving DecidableEq, Repr

namespace Timer

/-- Class attribute `Timer.clock_period = 5`. -/
def clock_period : Int := 5

/-- Method `setup(stages)`: the assignments run in source order; `stages[0]` raises
`TypeError` when `stages` is `None` and `IndexError` when it is empty, so on
those inputs the fields assigned before that line stay mutated while
`remaining` and `current_stage_start` keep their old values.  The (possibly
partially) mutated state is returned alongside the outcome. -/
def setup (t : TimerSt) (stages : Option (List TimerStage)) (now : Int) :
    TimerSt × Except PyErr Unit :=
  let t := { t with
    state := TimerState.STOPPED
    stages := stages
    current_stage := 0
    start_time := some now }
  match stages with
  | none => (t, .error .typeError)
  | some [] => (t, .error .indexError)
  | some (s0 :: _) =>
      ({ t with remaining := some s0.duration, current_stage_start := some now },
       .ok ())

/-- Constructor `Timer.__init__(name, role, channel, clock_channel, stages=None)` at time
`now`: field defaults, then `if stages: self.setup(stages)` (both `None` and
the empty list are falsy). -/
def init (name : String) (role_id : Int) (role_mention : String)
    (channel : Int) (clock_channel : Option Int)
    (stages : Option (List TimerStage)) (now : Int) : TimerSt :=
  let t : TimerSt :=
    { name := name
      role_id := role_id
      role_mention := role_mention
      channel := channel
      clock_channel := clock_channel
      start_time := none
      current_stage_start := none
      remaining := none
      state := TimerState.STOPPED
      stages := stages
      current_stage := 0
      subscribed := []
      last_clockupdate := 0 }
  match stages with
  | some (s0 :: rest) => (setup t (some (s0 :: rest)) now).1
  | _ => t

/-- Python `"{:02d}".format(n)`: zero-pad to width 2 (all call sites below
pass non-negative values). -/
def pad2 (n : Int) : String :=
  if 0 ≤ n ∧ n < 10 then "0" ++ toString n else toString n

/-- Method `pretty_remaining()`: formats `max(remaining, 0)` as `HH:MM:SS`.
`max(None, 0)` raises `TypeError` when `remaining` was never set.  After the
clamp the value is non-negative, so Python `//`/`%` agree with `Int` `/`/`%`
here. -/
def pretty_remaining (t : TimerSt) : Except PyErr String :=
  match t.remaining with
  | none => .error .typeError
  | some diff =>
      let diff := max diff 0
      let hours := diff / 3600
      let minutes := diff % 3600 / 60
      let seconds := diff % 60
      .ok (pad2 hours ++ ":" ++ pad2 minutes ++ ":" ++ pad2 seconds)

/-- Right-alignment `"{name:>w}"`: pad with spaces on the left to width `w`. -/
def rjust (s : String) (w : Nat) : String :=
  String.mk (List.replicate (w - s.length) ' ') ++ s

/-- One line of the stage listing in `pretty_pinstatus`:
`"`{prefix}{name:>longest}:` {dur} min  {current}"` where the current stage
gets the `->` marker and the live remaining time. -/
def stage_line (longest : Nat) (remaining : String) (current : Int)
    (i : Nat) (stage : TimerStage) : String :=
  let pfx := if (i : Int) = current then "->" else "​  "
  let cur := if (i : Int) = current then "(**" ++ remaining ++ "**)" else ""
  "`" ++ pfx ++ rjust stage.name longest ++ ":` " ++ toString stage.duration
    ++ " min  " ++ cur

/-- Method `pretty_pinstatus()`: the pinned-status block.  While RUNNING/PAUSED the
code reads `self.stages[self.current_stage]` (raising on `None`/empty stage
lists) and `pretty_remaining()`; when STOPPED it renders the "Not set up"
line. -/
def pretty_pinstatus (t : TimerSt) : Except PyErr String :=
  match t.state with
  | TimerState.STOPPED => .ok ("**" ++ t.name ++ "**: *Not set up.*")
  | _ =>
    match t.stages with
    | none => .error .typeError
    | some stages =>
      match pyGet stages t.current_stage with
      | .error e => .error e
      | .ok current_stage =>
        match pretty_remaining t with
        | .error e => .error e
        | .ok remaining =>
          let subbed_names := t.subscribed.map (fun p => p.2.member_name)
          let subbed_str :=
            if subbed_names.isEmpty then "*No subscribers*"
            else "```" ++ String.intercalate ", " subbed_names ++ "```"
          let longest := (stages.map (fun s => s.name.length)).foldl max 0
          let stage_str := String.intercalate "\n"
            ((stages.enum).map (fun p => stage_line longest remaining t.current_stage p.1 p.2))
          .ok ("**" ++ t.name ++ "** (" ++ current_stage.name ++ ")"
            ++ (if t.state = TimerState.PAUSED then " ***Paused***" else "")
            ++ "\n" ++ stage_str ++ "\n" ++ subbed_str)

/-- The comprehension `[subber.touch() for subber in self.subscribed]` in `change_stage`:
iterating a Python `dict` yields its keys — here the integer user ids — and
`int` has no attribute `touch`, so the first iteration raises
`AttributeError`.  Over an empty dict the comprehension does nothing. -/
def touch_subscribed_keys (subscribed : List (Int × TimerSubscriber)) :
    Except PyErr Unit :=
  match subscribed with
  | [] => .ok ()
  | _ :: _ => .error .attributeError

/-- The notification text sent by `change_stage` when `notify` is true. -/
def change_stage_message (t : TimerSt) (current_stage new_stage : TimerStage)
    (report_old : Bool) : String :=
  let old_stage_str :=
    if report_old then "**" ++ current_stage.name ++ "** finished! " else ""
  t.role_mention ++ "\n" ++ old_stage_str ++ "Starting **" ++ new_stage.name
    ++ "** (" ++ toString new_stage.duration ++ " minutes). "
    ++ new_stage.message
    ++ "\nPlease react to this message to register your presence!"

/-- Method `change_stage(stage_index, notify=True, inactivity_check=True,
report_old=True)` at time `now`: touches the "subscribers" (see
`touch_subscribed_keys`), wraps the index with `stage_index % len(stages)`
(`len(None)` raises `TypeError`, `% 0` raises `ZeroDivisionError`), sends the
notification and requests the ✅ reaction (the reaction failure is swallowed),
then assigns `current_stage`, `current_stage_start` and
`remaining = duration * 60`.  The final `# Handle inactivity` branch is a
no-op `pass`. -/
def change_stage (t : TimerSt) (stage_index : Int) (now : Int)
    (notify _inactivity_check report_old : Bool) : Except PyErr (TimerSt × List Effect) :=
  match touch_subscribed_keys t.subscribed with
  | .error e => .error e
  | .ok () =>
    match t.stages with
    | none => .error .typeError
    | some stages =>
      if stages.length = 0 then .error .zeroDivisionError
      else
        let stage_index := stage_index % (stages.length : Int)
        match pyGet stages t.current_stage with
        | .error e => .error e
        | .ok current_stage =>
          match pyGet stages stage_index with
          | .error e => .error e
          | .ok new_stage =>
            let effs :=
              if notify then
                [Effect.sendMessage t.channel
                    (change_stage_message t current_stage new_stage report_old),
                 Effect.addReaction "✅"]
              else []
            .ok ({ t with
                    current_stage := stage_index
                    current_stage_start := some now
                    remaining := some (new_stage.duration * 60) },
                 effs)

/-- Method `start()`: `change_stage(0, report_old=False)`, then `state = RUNNING`,
then `asyncio.ensure_future(self.runloop())` — recorded as a
`spawnRunloop` effect.  No check of the current state is performed. -/
def start (t : TimerSt) (now : Int) : Except PyErr (TimerSt × List Effect) :=
  match change_stage t 0 now true true false with
  | .error e => .error e
  | .ok (t, effs) =>
      .ok ({ t with state := TimerState.RUNNING }, effs ++ [Effect.spawnRunloop])

/-- The `while self.state == TimerState.RUNNING` condition of `runloop`:
the loop keeps going exactly while this holds, and exits (only) once the
state leaves RUNNING. -/
def runloop_continues (t : TimerSt) : Bool :=
  t.state = TimerState.RUNNING

/-- Method `update_clock_channel()` at time `now`: returns immediately when there is
no clock channel or when `now - last_clockupdate < clock_period`; otherwise
reads the stage name and `pretty_remaining()` and attempts the channel-name
edit (failure swallowed).  Note that `last_clockupdate` is never assigned
after `__init__`. -/
def update_clock_channel (t : TimerSt) (now : Int) :
    Except PyErr (TimerSt × List Effect) :=
  match t.clock_channel with
  | none => .ok (t, [])
  | some ch =>
    if now - t.last_clockupdate < clock_period then .ok (t, [])
    else
      match t.stages with
      | none => .error .typeError
      | some stages =>
        match pyGet stages t.current_stage with
        | .error e => .error e
        | .ok stage =>
          match pretty_remaining t with
          | .error e => .error e
          | .ok remaining_time =>
            .ok (t, [Effect.editChannelName ch (stage.name ++ " - " ++ remaining_time)])

/-- One iteration of the `runloop` body (entered only when
`runloop_continues` holds): recomputes
`remaining = int(60*duration - (now - current_stage_start))`, auto-advances
via `change_stage(current_stage + 1)` when it is `<= 0`, then calls
`update_clock_channel`. -/
def runloop_tick (t : TimerSt) (now : Int) :
    Except PyErr (TimerSt × List Effect) :=
  match t.stages with
  | none => .error .typeError
  | some stages =>
    match pyGet stages t.current_stage with
    | .error e => .error e
    | .ok stage =>
      match t.current_stage_start with
      | none => .error .typeError
      | some css =>
        let t := { t with remaining := some (60 * stage.duration - (now - css)) }
        let step : Except PyErr (TimerSt × List Effect) :=
          if 60 * stage.duration - (now - css) ≤ 0 then
            change_stage t (t.current_stage + 1) now true true true
          else .ok (t, [])
        match step with
        | .error e => .error e
        | .ok (t, effs) =>
          match update_clock_channel t now with
          | .error e => .error e
          | .ok (t, effs2) => .ok (t, effs ++ effs2)

end Timer

/-- Embeds `class TimerChannel` state: the bound channel id, the bound timers in
insertion order, and `msg` — the pinned status message, modelled by its
current embed description (`None` until created). -/
structure TimerChannelSt where
  channel : Int
  timers : List TimerSt
  msg : Option String
  deriving DecidableEq, Repr

/-- Outcomes of the fallible transport calls `TimerChannel.update` makes.
Per the collaborator contracts, creating the embed status message
(`channel.send(embed=...)`) may be rejected with `discord.Forbidden`;
`msg.edit` and `msg.pin` may fail (their failures are swallowed); the plain
text `channel.send(text)` notification succeeds. -/
structure World where
  createOk : Bool
  editOk : Bool
  pinOk : Bool
  deriving DecidableEq, Repr

/-- Evaluation of a Python list comprehension `[f(x) for x in xs]` where each
`f(x)` may raise: elements are produced left to right and the first exception
propagates. -/
def mapExcept {α β : Type} (f : α → Except PyErr β) : List α → Except PyErr (List β)
  | [] => .ok []
  | x :: xs =>
    match f x with
    | .error e => .error e
    | .ok y =>
      match mapExcept f xs with
      | .error e => .error e
      | .ok ys => .ok (y :: ys)

namespace TimerChannel

/-- Constructor `TimerChannel.__init__(channel)`. -/
def init (channel : Int) : TimerChannelSt :=
  { channel := channel, timers := [], msg := none }

/-- The fallback notice sent when embed creation is rejected. -/
def fallback_text : String :=
  "I require permission to send embeds in this channel! Stopping all timers."

/-- Method `TimerChannel.update()`: gathers `pretty_pinstatus()` from every member
timer (the list comprehension is not guarded, so a failing render
propagates), and when the list is non-empty joins the statuses with a
blank-line separator into the embed description.  With an existing `msg` it
edits it in place (failure swallowed; on success the surface shows the new
description).  Otherwise it sends the embed; on `discord.Forbidden` it sends
the plain fallback notice and sets every member timer's state to STOPPED.
The subsequent `self.msg.pin()` runs in both branches: after a successful
send it is the pin attempt (failure swallowed); in the Forbidden branch
`self.msg` is still `None`, so the attribute access raises `AttributeError`,
also swallowed by the same handler. -/
def update (tc : TimerChannelSt) (w : World) :
    Except PyErr (TimerChannelSt × List Effect) :=
  match mapExcept Timer.pretty_pinstatus tc.timers with
  | .error e => .error e
  | .ok messages =>
    if messages.isEmpty then .ok (tc, [])
    else
      let desc := String.intercalate "\n\n" messages
      match tc.msg with
      | some _ =>
          if w.editOk then .ok ({ tc with msg := some desc }, [Effect.editMessage desc])
          else .ok (tc, [Effect.editMessage desc])
      | none =>
          if w.createOk then
            .ok ({ tc with msg := some desc },
                 [Effect.sendEmbed tc.channel "Pomodoro Timer Status" desc,
                  Effect.pinMessage])
          else
            .ok ({ tc with
                    timers := tc.timers.map (fun t => { t with state := TimerState.STOPPED }) },
                 [Effect.sendEmbed tc.channel "Pomodoro Timer Status" desc,
                  Effect.sendMessage tc.channel fallback_text])

end TimerChannel

/-! Concrete sample data used by witnesses and counterexamples. -/

/-- Sample stage "Work", 25 minutes. -/
def stageW : TimerStage := { name := "Work", duration := 25 }

/-- Sample stage "Break", 5 minutes. -/
def stageB : TimerStage := { name := "Break", duration := 5 }

/-- Sample stage "Long", 15 minutes. -/
def stageL : TimerStage := { name := "Long", duration := 15 }

/-- A timer constructed with three stages at time 1000 (so `__init__` ran
`setup`, leaving it STOPPED with stage index 0). -/
def sampleTimer : TimerSt :=
  Timer.init "Pomo" 7 "@pomo" 100 (some 200) (some [stageW, stageB, stageL]) 1000

/-- A subscriber who joined at time 500. -/
def sampleSub : TimerSubscriber := TimerSubscriber.init 1 "alice" 2 3 500

/-- The sample timer with one subscriber in its mapping. -/
def subbedTimer : TimerSt := { sampleTimer with subscribed := [(1, sampleSub)] }

/-- The sample timer while running, currently in stage 1 ("Break"). -/
def runningTimer : TimerSt :=
  { sampleTimer with state := TimerState.RUNNING, current_stage := 1 }

/-- The state `change_stage(-1, notify=False)` at time 2000 produces from
`sampleTimer`: wrapped to stage index 2 ("Long"), `remaining = 15 * 60`. -/
def wrappedTimer : TimerSt :=
  { sampleTimer with
    current_stage := 2, current_stage_start := some 2000, remaining := some 900 }

/-- The sample timer while running (stage index 0). -/
def runningTimer0 : TimerSt := { sampleTimer with state := TimerState.RUNNING }

/-- The state `start()` at time 2000 produces from `runningTimer0`. -/
def startedTimer : TimerSt :=
  { sampleTimer with
    state := TimerState.RUNNING, current_stage_start := some 2000,
    remaining := some 1500 }

/-- The transport calls `start()` at time 2000 makes from `runningTimer0`. -/
def startEffects : List Effect :=
  [Effect.sendMessage 100
    "@pomo\nStarting **Work** (25 minutes). \nPlease react to this message to register your presence!",
   Effect.addReaction "✅",
   Effect.spawnRunloop]

/-- A second sample timer, named "B". -/
def sampleTimerB : TimerSt := { sampleTimer with name := "B" }

/-- A timer channel with two member timers and no status message yet. -/
def statusChannel : TimerChannelSt :=
  { channel := 5, timers := [sampleTimer, sampleTimerB], msg := none }

/-- A timer channel with a single member timer and no status message yet. -/
def smallChannel : TimerChannelSt :=
  { channel := 5, timers := [sampleTimer], msg := none }

/-- The rendered statuses of `statusChannel`'s two (stopped) member timers. -/
def sampleMessages : List String :=
  ["**Pomo**: *Not set up.*", "**B**: *Not set up.*"]

/-- A world in which every transport call succeeds. -/
def okWorld : World := { createOk := true, editOk := true, pinOk := true }

/-- A world in which creating the embed status message is rejected with
`discord.Forbidden`. -/
def forbiddenWorld : World := { createOk := false, editOk := true, pinOk := true }

/-! Helper lemmas. -/

/-- The `time_subbed` attribute access always raises: `"time_subbed"` is not
in `__slots__`. -/
theorem time_subbed_slot_eq :
    TimerSubscriber.time_subbed_slot = .error .attributeError := rfl

/-- A successful comprehension produces one element per input (no element is
skipped). -/
theorem mapExcept_length {α β : Type} (f : α → Except PyErr β) :
    ∀ (xs : List α) (ys : List β), mapExcept f xs = .ok ys → ys.length = xs.length := by
  intro xs
  induction xs with
  | nil => intro ys h; simp [mapExcept] at h; simp [← h]
  | cons x xs ih =>
    intro ys h
    unfold mapExcept at h
    cases hx : f x with
    | error e => rw [hx] at h; exact absurd h (by simp)
    | ok y =>
      rw [hx] at h
      cases hxs : mapExcept f xs with
      | error e => rw [hxs] at h; exact absurd h (by simp)
      | ok ys0 =>
        rw [hxs] at h
        simp at h
        simp [← h, ih ys0 hxs]

/-! Theorems for the claims. -/

/-- C10: every newly constructed Subscriber starts with `active = true`,
`clocked_time = 0`, `warnings = 0` and
`time_joined = last_updated = last_seen = now` (the creation time), so a
participant begins accruing active time immediately upon subscribing. -/
theorem subscriber_init_starts_active (member_id : Int) (member_name : String)
    (guild_id role_id now : Int) :
    (TimerSubscriber.init member_id member_name guild_id role_id now).active = true ∧
    (TimerSubscriber.init member_id member_name guild_id role_id now).clocked_time = 0 ∧
    (TimerSubscriber.init member_id member_name guild_id role_id now).warnings = 0 ∧
    (TimerSubscriber.init member_id member_name guild_id role_id now).time_joined = now ∧
    (TimerSubscriber.init member_id member_name guild_id role_id now).last_updated = now ∧
    (TimerSubscriber.init member_id member_name guild_id role_id now).last_seen = now :=
  ⟨rfl, rfl, rfl, rfl, rfl, rfl⟩

/-- C7: `touch()` adds `now - last_updated` to `clocked_time` exactly when
`active` is true and adds 0 otherwise, always sets `last_updated = now`, and
a second `touch()` with the same `now` leaves `clocked_time` unchanged
(zero-elapsed idempotence). -/
theorem touch_accounting (s : TimerSubscriber) (now : Int) :
    (s.touch now).clocked_time
        = s.clocked_time + (if s.active then now - s.last_updated else 0) ∧
    (s.touch now).last_updated = now ∧
    ((s.touch now).touch now).clocked_time = (s.touch now).clocked_time := by
  refine ⟨rfl, rfl, ?_⟩
  cases h : s.active <;> simp [TimerSubscriber.touch, h]

/-- C3 (code bug): the round trip is impossible — `serialise` reads
`self.time_subbed`, an attribute that `__slots__` does not declare (the slot
is `clocked_time`) and that `__init__` never assigns, so it raises
`AttributeError` for every subscriber; `deserialise` likewise raises on every
input (on 6-or-more-element data at the `self.time_subbed = data[5]`
assignment, on shorter data at the indexing). -/
theorem serialise_deserialise_always_raise :
    (∀ s : TimerSubscriber, s.serialise = .error .attributeError) ∧
    (∀ (member_id : Int) (member_name : String) (guild_id role_id : Int)
        (data : List Int) (now : Int),
        ∃ e, TimerSubscriber.deserialise member_id member_name guild_id role_id data now
              = .error e) := by
  constructor
  · intro s
    simp [TimerSubscriber.serialise, time_subbed_slot_eq]
  · intro member_id member_name guild_id role_id data now
    unfold TimerSubscriber.deserialise
    cases h3 : pyGet data 3 with
    | error e => exact ⟨e, by simp [h3]⟩
    | ok tj =>
      cases h4 : pyGet data 4 with
      | error e => exact ⟨e, by simp [h3, h4]⟩
      | ok lu =>
        cases h5 : pyGet data 5 with
        | error e => exact ⟨e, by simp [h3, h4, h5]⟩
        | ok ts => exact ⟨.attributeError, by simp [h3, h4, h5, time_subbed_slot_eq]⟩

/-- C1 (code bug): whenever the subscriber mapping is non-empty,
`change_stage` raises `AttributeError` instead of touching the subscribers:
`[subber.touch() for subber in self.subscribed]` iterates the dict's keys
(integer user ids), and `int` has no `touch` method.  No subscriber is
touched and no field is updated. -/
theorem change_stage_raises_with_subscribers (t : TimerSt) (i now : Int)
    (notify ic ro : Bool) (h : t.subscribed ≠ []) :
    Timer.change_stage t i now notify ic ro = .error .attributeError := by
  unfold Timer.change_stage
  cases hs : t.subscribed with
  | nil => exact absurd hs h
  | cons a as => rfl

/-- Witness for C1: a timer with stages `[Work, Break, Long]` and one
subscriber; `change_stage(1)` raises `AttributeError`. -/
theorem change_stage_raises_with_subscribers_witness :
    Timer.change_stage subbedTimer 1 2000 true true true = .error .attributeError :=
  change_stage_raises_with_subscribers subbedTimer 1 2000 true true true
    (by simp [subbedTimer])

/-- C2: whenever `change_stage(i)` completes, the timer's stage list was a
non-empty `stages`, the new `current_stage` equals `i % len(stages)`
(Python semantics: the result lies in `[0, len(stages))` also for negative
`i`), and `remaining` equals the new stage's duration times 60. -/
theorem change_stage_wraps_index (t : TimerSt) (i now : Int) (notify ic ro : Bool)
    (t' : TimerSt) (effs : List Effect)
    (h : Timer.change_stage t i now notify ic ro = .ok (t', effs)) :
    ∃ stages : List TimerStage, t.stages = some stages ∧ 0 < stages.length ∧
      t'.current_stage = i % (stages.length : Int) ∧
      0 ≤ t'.current_stage ∧ t'.current_stage < (stages.length : Int) ∧
      ∃ new_stage : TimerStage, pyGet stages t'.current_stage = .ok new_stage ∧
        t'.remaining = some (new_stage.duration * 60) := by
  unfold Timer.change_stage at h
  split at h
  · exact absurd h (by simp)
  split at h
  · exact absurd h (by simp)
  rename_i stages hstages
  split at h
  · exact absurd h (by simp)
  rename_i hlen
  split at h
  · exact absurd h (by simp)
  split at h <;>
  · dsimp only at h
    split at h
    · exact absurd h (by simp)
    rename_i new_stage hnew
    simp only [Except.ok.injEq, Prod.mk.injEq] at h
    obtain ⟨ht', _⟩ := h
    subst ht'
    exact ⟨stages, hstages, by omega, rfl,
      Int.emod_nonneg i (by exact_mod_cast hlen), Int.emod_lt_of_pos i (by omega),
      new_stage, hnew, rfl⟩

/-- Witness for C2: with the 3-stage sample timer, `change_stage(-1)`
(notifications off) completes and wraps to index `-1 mod 3 = 2` with
`remaining = 15 * 60 = 900`. -/
theorem change_stage_wraps_index_witness :
    (∃ stages : List TimerStage, sampleTimer.stages = some stages ∧ 0 < stages.length ∧
      wrappedTimer.current_stage = -1 % (stages.length : Int) ∧
      0 ≤ wrappedTimer.current_stage ∧ wrappedTimer.current_stage < (stages.length : Int) ∧
      ∃ new_stage : TimerStage, pyGet stages wrappedTimer.current_stage = .ok new_stage ∧
        wrappedTimer.remaining = some (new_stage.duration * 60)) ∧
    wrappedTimer.current_stage = 2 :=
  ⟨change_stage_wraps_index sampleTimer (-1) 2000 false true true wrappedTimer [] rfl, rfl⟩

/-- C4 (code bug): the 5-second rate limit never takes effect after the first
epoch seconds, because `last_clockupdate` is initialised to 0 and never
updated by a refresh: two `update_clock_channel` calls only one second apart
(at times 100 and 101) both perform the channel-name edit, and the state —
including `last_clockupdate` — is returned unchanged. -/
theorem clock_refresh_not_rate_limited :
    Timer.update_clock_channel sampleTimer 100
      = .ok (sampleTimer, [Effect.editChannelName 200 "Work - 00:00:25"]) ∧
    Timer.update_clock_channel sampleTimer 101
      = .ok (sampleTimer, [Effect.editChannelName 200 "Work - 00:00:25"]) ∧
    sampleTimer.last_clockupdate = 0 :=
  ⟨rfl, rfl, rfl⟩

/-- C5 counterexample: calling `setup` with an empty stage list on a running
timer raises `IndexError` (at `stages[0]`) but is not mutation-free: `state`,
`current_stage`, `stages` and `start_time` have all changed when the
exception escapes. -/
theorem setup_empty_not_atomic :
    (Timer.setup runningTimer (some []) 2000).2 = .error .indexError ∧
    (Timer.setup runningTimer (some []) 2000).1.state ≠ runningTimer.state ∧
    (Timer.setup runningTimer (some []) 2000).1.current_stage ≠ runningTimer.current_stage ∧
    (Timer.setup runningTimer (some []) 2000).1.stages ≠ runningTimer.stages ∧
    (Timer.setup runningTimer (some []) 2000).1.start_time ≠ runningTimer.start_time := by
  refine ⟨rfl, ?_, ?_, ?_, ?_⟩ <;> decide

/-- C5 amended: `setup` with an empty or missing stage list raises
(`IndexError` / `TypeError` at `stages[0]`), but only after mutating part of
the state: `state` is set to STOPPED, `stages` to the given argument,
`current_stage` to 0 and `start_time` to now, while `remaining` and
`current_stage_start` keep their previous values. -/
theorem setup_empty_still_mutates (t : TimerSt) (stages : Option (List TimerStage))
    (now : Int) (h : stages = none ∨ stages = some []) :
    (∃ e, (Timer.setup t stages now).2 = .error e) ∧
    (Timer.setup t stages now).1.state = TimerState.STOPPED ∧
    (Timer.setup t stages now).1.stages = stages ∧
    (Timer.setup t stages now).1.current_stage = 0 ∧
    (Timer.setup t stages now).1.start_time = some now ∧
    (Timer.setup t stages now).1.remaining = t.remaining ∧
    (Timer.setup t stages now).1.current_stage_start = t.current_stage_start := by
  rcases h with h | h <;> subst h <;> exact ⟨⟨_, rfl⟩, rfl, rfl, rfl, rfl, rfl, rfl⟩

/-- Helper: a completed `change_stage` never schedules a runloop task — its
transport calls are only the stage notification and the reaction request. -/
theorem change_stage_effects_no_spawn (t : TimerSt) (i now : Int)
    (notify ic ro : Bool) (t' : TimerSt) (effs : List Effect)
    (h : Timer.change_stage t i now notify ic ro = .ok (t', effs)) :
    Effect.spawnRunloop ∉ effs := by
  unfold Timer.change_stage at h
  split at h
  · exact absurd h (by simp)
  split at h
  · exact absurd h (by simp)
  split at h
  · exact absurd h (by simp)
  split at h
  · exact absurd h (by simp)
  split at h <;>
  · dsimp only at h
    split at h
    · exact absurd h (by simp)
    simp only [Except.ok.injEq, Prod.mk.injEq] at h
    obtain ⟨_, heffs⟩ := h
    rw [← heffs]
    simp

/-- C6: when there is no status message yet, the member timers render
successfully and non-emptily, and the embed creation is rejected
(`discord.Forbidden`), `update()` returns normally (no exception
propagates), its transport calls include the plain fallback notice, and
every member timer ends up STOPPED. -/
theorem update_forbidden_stops_all_timers (tc : TimerChannelSt) (w : World)
    (msgs : List String)
    (hm : mapExcept Timer.pretty_pinstatus tc.timers = .ok msgs)
    (hne : msgs ≠ []) (hmsg : tc.msg = none) (hw : w.createOk = false) :
    ∃ tc' effs, TimerChannel.update tc w = .ok (tc', effs) ∧
      Effect.sendMessage tc.channel TimerChannel.fallback_text ∈ effs ∧
      (∀ t ∈ tc'.timers, t.state = TimerState.STOPPED) ∧
      tc'.timers.length = tc.timers.length := by
  unfold TimerChannel.update
  rw [hm]
  rcases msgs with _ | ⟨m, ms⟩
  · exact absurd rfl hne
  dsimp only
  rw [hmsg, hw]
  dsimp only
  refine ⟨_, _, rfl, by simp, ?_, by simp⟩
  intro t ht
  obtain ⟨u, _, rfl⟩ := List.mem_map.1 ht
  rfl

/-- Witness for C6: a channel with one (stopped) member timer, no status
message, and embed creation rejected. -/
theorem update_forbidden_stops_all_timers_witness :
    ∃ tc' effs, TimerChannel.update smallChannel forbiddenWorld = .ok (tc', effs) ∧
      Effect.sendMessage smallChannel.channel TimerChannel.fallback_text ∈ effs ∧
      (∀ t ∈ tc'.timers, t.state = TimerState.STOPPED) ∧
      tc'.timers.length = smallChannel.timers.length :=
  update_forbidden_stops_all_timers smallChannel forbiddenWorld
    ["**Pomo**: *Not set up.*"] rfl (by simp) rfl rfl

/-- C9: when the member timers render successfully and non-emptily, with no
existing status message `update()` creates exactly one status surface whose
content is every member timer's `pretty_pinstatus()` (one per timer — none
skipped) joined by a blank-line separator in insertion order, and then pins
it; with an existing surface it edits it in place instead of creating a new
one. -/
theorem update_creates_or_edits (tc : TimerChannelSt) (w : World)
    (msgs : List String)
    (hm : mapExcept Timer.pretty_pinstatus tc.timers = .ok msgs)
    (hne : msgs ≠ []) (hcreate : w.createOk = true) (hedit : w.editOk = true) :
    msgs.length = tc.timers.length ∧
    (tc.msg = none →
      TimerChannel.update tc w
        = .ok ({ tc with msg := some (String.intercalate "\n\n" msgs) },
               [Effect.sendEmbed tc.channel "Pomodoro Timer Status"
                  (String.intercalate "\n\n" msgs),
                Effect.pinMessage])) ∧
    (∀ m, tc.msg = some m →
      TimerChannel.update tc w
        = .ok ({ tc with msg := some (String.intercalate "\n\n" msgs) },
               [Effect.editMessage (String.intercalate "\n\n" msgs)])) := by
  refine ⟨mapExcept_length Timer.pretty_pinstatus tc.timers msgs hm, ?_, ?_⟩
  · intro hmsg
    unfold TimerChannel.update
    rw [hm]
    rcases msgs with _ | ⟨m, ms⟩
    · exact absurd rfl hne
    dsimp only
    rw [hmsg, hcreate]
    rfl
  · intro m0 hmsg
    unfold TimerChannel.update
    rw [hm]
    rcases msgs with _ | ⟨m, ms⟩
    · exact absurd rfl hne
    dsimp only
    rw [hmsg, hedit]
    rfl

/-- Witness for C9: the two-timer channel with no existing message and a
permissive world; `update()` creates the single combined surface. -/
theorem update_creates_or_edits_witness :
    TimerChannel.update statusChannel okWorld
      = .ok ({ statusChannel with
                msg := some (String.intercalate "\n\n" sampleMessages) },
             [Effect.sendEmbed statusChannel.channel "Pomodoro Timer Status"
                (String.intercalate "\n\n" sampleMessages),
              Effect.pinMessage]) :=
  (update_creates_or_edits statusChannel okWorld sampleMessages rfl
    (by simp [sampleMessages]) rfl rfl).2.1 rfl

/-- C8 counterexample: a timer that is already RUNNING (so an existing
runloop's `while` condition holds); `start()` nevertheless completes with a
`spawnRunloop` call scheduling a fresh runloop task, and the state it leaves
is still RUNNING, so the pre-existing loop's exit condition never became
true — two loops are now live for the same Timer. -/
theorem start_spawns_second_loop :
    runningTimer0.state = TimerState.RUNNING ∧
    Timer.runloop_continues runningTimer0 = true ∧
    Timer.start runningTimer0 2000 = .ok (startedTimer, startEffects) ∧
    Effect.spawnRunloop ∈ startEffects ∧
    Timer.runloop_continues startedTimer = true :=
  ⟨rfl, rfl, rfl, by simp [startEffects], rfl⟩

/-- C8 amended: `start()` inspects no state at all: whenever it completes it
has scheduled exactly one fresh runloop task (none of its other transport
calls is a loop spawn), and it leaves the state RUNNING, under which a
pre-existing runloop's `while` condition continues to hold.  In particular
calling `start()` while already RUNNING adds a second concurrent loop. -/
theorem start_always_spawns_loop (t : TimerSt) (now : Int)
    (t' : TimerSt) (effs : List Effect)
    (h : Timer.start t now = .ok (t', effs)) :
    t'.state = TimerState.RUNNING ∧ Timer.runloop_continues t' = true ∧
    ∃ effs0, effs = effs0 ++ [Effect.spawnRunloop] ∧
      Effect.spawnRunloop ∉ effs0 := by
  unfold Timer.start at h
  cases hc : Timer.change_stage t 0 now true true false with
  | error e => rw [hc] at h; exact absurd h (by simp)
  | ok r =>
    obtain ⟨t0, effs0⟩ := r
    rw [hc] at h
    simp only [Except.ok.injEq, Prod.mk.injEq] at h
    obtain ⟨ht', heffs⟩ := h
    subst ht'
    rw [← heffs]
    exact ⟨rfl, rfl, effs0, rfl,
      change_stage_effects_no_spawn t 0 now true true false t0 effs0 hc⟩

/-- Witness for C8 amended: applied to the already-running sample timer. -/
theorem start_always_spawns_loop_witness :
    startedTimer.state = TimerState.RUNNING ∧
    Timer.runloop_continues startedTimer = true ∧
    ∃ effs0, startEffects = effs0 ++ [Effect.spawnRunloop] ∧
      Effect.spawnRunloop ∉ effs0 :=
  start_always_spawns_loop runningTimer0 2000 startedTimer startEffects rfl

/-- Witness for C5 amended: the running sample timer, `setup(some [])` at
time 2000. -/
theorem setup_empty_still_mutates_witness :
    (∃ e, (Timer.setup runningTimer (some []) 2000).2 = .error e) ∧
    (Timer.setup runningTimer (some []) 2000).1.state = TimerState.STOPPED ∧
    (Timer.setup runningTimer (some []) 2000).1.stages = some [] ∧
    (Timer.setup runningTimer (some []) 2000).1.current_stage = 0 ∧
    (Timer.setup runningTimer (some []) 2000).1.start_time = some 2000 ∧
    (Timer.setup runningTimer (some []) 2000).1.remaining = runningTimer.remaining ∧
    (Timer.setup runningTimer (some []) 2000).1.current_stage_start
      = runningTimer.current_stage_start :=
  setup_empty_still_mutates runningTimer (some []) 2000 (Or.inr rfl)

end PomoBot
